import Mathlib

/-!
# Shallow embedding of the NTP-for-ESP32 clock (src/NTP_Clock_New2.ino)

The sketch keeps three pieces of mutable state that drive the
time-acquisition and resynchronization machine:

* `bTimeReceived : bool` (line 69) — set by `initTime`/`updateNtpTime`,
  cleared by the forced-resync branch of `loop`;
* `start : int` (line 75) — 0 initially, set to 1 on a successful
  acquisition (lines 115, 137) and by the forced-resync branch (line 266);
* `refresh : static int` in `loop` (line 254) — the tick counter,
  incremented once per iteration inside the `if (bTimeReceived)` render
  block (line 280), reset to 0 by the forced-resync branch (line 274).

External collaborators (the SNTP client behind `configTime`/`getLocalTime`,
the C library `setenv`/`tzset`/`localtime`, `strftime`, the u8g2 display and
WiFi) are modelled by an `Externals` record of abstract functions plus an
explicit event trace; the outcome of a `getLocalTime` call is an oracle
`Bool` input, and the timestamp delivered by a successful SNTP sync is an
oracle `Int` input.  Serial prints and `delay` calls have no effect on the
modelled state and are not recorded.
-/

namespace NTPClock

/-- Abstract external collaborators: `strftime` with the two format strings
used by the sketch, `u8g2.getStrWidth`, and the POSIX-TZ database's offset
for a rule string (the net zone adjustment `localtime` applies once the rule
is installed via `setenv("TZ",...)`/`tzset`). -/
structure Externals where
  fmtDate : Int → String
  fmtTime : Int → String
  strWidth : String → Nat
  ruleOffset : String → Int

/-- The process-wide time environment of the ESP32 C runtime: the raw clock
value (epoch seconds held by the RTC) and the currently installed timezone
adjustment.  `configTime` and `setenv("TZ",...)`/`tzset` each overwrite the
installed adjustment — the last writer wins, which is why the order of the
raw commit and the rule application matters. -/
structure TimeEnv where
  rawClock : Int
  tzSetting : Int
  deriving Repr, DecidableEq

/-- The three globals of the sketch that the claims are about:
`bTimeReceived` (line 69), `start` (line 75) and the static `refresh`
counter of `loop` (line 254). -/
structure ClockState where
  bTimeReceived : Bool
  start : Nat
  refresh : Nat
  deriving Repr, DecidableEq

/-- Full modelled system state: the three control globals plus the
process-wide time environment. -/
structure SysState where
  clock : ClockState
  env : TimeEnv
  deriving Repr, DecidableEq

/-- Observable calls made to external collaborators, in program order. -/
inductive Event where
  | eConfigTime (gmtOff dstOff : Int) (server : String)
  | eSetTZ (rule : String)
  | eWifiBegin (ssid password : String)
  | eDigitalWrite (pin : Nat) (level : Bool)
  | eSetFont (font : String)
  | eClearBuffer
  | eDrawStr (x y : Int) (text : String)
  | eSendBuffer
  deriving Repr, DecidableEq

/-- Line 68: the WiFi SSID. -/
def chSSID : String := "SSID"

/-- Line 67: the WiFi password. -/
def chPassword : String := "wifi_password"

/-- Line 76: the configured POSIX timezone rule string. -/
def tz : String := "EST5EDT,M3.2.0,M11.1.0"

/-- Lines 105/127: the NTP server handed to `configTime`. -/
def ntpServer : String := "time-c.nist.gov"

/-- Line 265: the hard-coded tick threshold (`16200` ≈ one hour at 200 ms
per iteration). -/
def RESYNC_THRESHOLD : Nat := 16200

/-- Line 53: `FONT_TWO_HEIGHT`, used for the time string's y coordinate. -/
def FONT_TWO_HEIGHT : Int := 20

/-- Model of `configTime(gmtOff, dstOff, server)` (lines 105, 127): installs the two
offsets as the process zone adjustment and starts an SNTP sync; `sync` is
`some t` when the sync delivers timestamp `t` before the subsequent
`getLocalTime` poll, `none` when it does not (the raw clock is then left as
it was). -/
def configTime (gmtOff dstOff : Int) (sync : Option Int) (env : TimeEnv) : TimeEnv :=
  { rawClock := sync.getD env.rawClock, tzSetting := gmtOff + dstOff }

/-- Model of `setTimezone` (lines 83–87): `setenv("TZ", timezone, 1); tzset();` —
overwrites the installed zone adjustment with the rule's offset. -/
def setTimezone (ext : Externals) (timezone : String) (env : TimeEnv) : TimeEnv :=
  { env with tzSetting := ext.ruleOffset timezone }

/-- What `localtime`/`getLocalTime` reads back: the raw clock adjusted by
the installed zone setting. -/
def localRead (env : TimeEnv) : Int := env.rawClock + env.tzSetting

/-- Model of `initTime(timezone)` (lines 100–118), called from `setup`:
`configTime(0,0,server)`; if `getLocalTime` fails (oracle `ok = false`),
set `bTimeReceived = false` and return; otherwise `setTimezone(timezone)`,
`start = 1`, `bTimeReceived = true`.  Returns the new state and the trace
of external calls. -/
def initTime (ext : Externals) (ok : Bool) (ntpNow : Int) (timezone : String)
    (s : SysState) : SysState × List Event :=
  let env1 := configTime 0 0 (if ok then some ntpNow else none) s.env
  if ok = false then
    ({ clock := { s.clock with bTimeReceived := false }, env := env1 },
     [.eConfigTime 0 0 ntpServer])
  else
    ({ clock := { bTimeReceived := true, start := 1, refresh := s.clock.refresh },
       env := setTimezone ext timezone env1 },
     [.eConfigTime 0 0 ntpServer, .eSetTZ timezone])

/-- Model of `updateNtpTime(timezone)` (lines 122–139), called from `loop` while
`bTimeReceived == false`: identical effect to `initTime` (only the serial
messages differ). -/
def updateNtpTime (ext : Externals) (ok : Bool) (ntpNow : Int) (timezone : String)
    (s : SysState) : SysState × List Event :=
  let env1 := configTime 0 0 (if ok then some ntpNow else none) s.env
  if ok = false then
    ({ clock := { s.clock with bTimeReceived := false }, env := env1 },
     [.eConfigTime 0 0 ntpServer])
  else
    ({ clock := { bTimeReceived := true, start := 1, refresh := s.clock.refresh },
       env := setTimezone ext timezone env1 },
     [.eConfigTime 0 0 ntpServer, .eSetTZ timezone])

/-- The external calls of the render block (lines 283–306):
`digitalWrite(25, LOW)`, clear the buffer, draw the `strftime`-formatted
date at `(60 - width/2, 7)`, draw the time at `(10, 52 - FONT_TWO_HEIGHT)`,
send the buffer. -/
def renderEvents (ext : Externals) (env : TimeEnv) : List Event :=
  let t := localRead env
  let dateStr := ext.fmtDate t
  let timeStr := ext.fmtTime t
  [.eDigitalWrite 25 false,
   .eClearBuffer,
   .eSetFont "u8g2_font_6x10_tr",
   .eDrawStr (60 - (ext.strWidth dateStr : Int) / 2) 7 dateStr,
   .eSetFont "u8g2_font_fur20_tn",
   .eDrawStr 10 (52 - FONT_TWO_HEIGHT) timeStr,
   .eSendBuffer]

/-- Result of one `loop` iteration: the new state, the trace of external
calls, and whether the forced-resync branch (line 265) fired. -/
structure LoopResult where
  state : SysState
  events : List Event
  fired : Bool
  deriving Repr, DecidableEq

/-- One iteration of `loop` (lines 251–311), parameterized by the tick
threshold `T` (the source fixes `T = 16200`, line 265):

1. lines 260–263: if `bTimeReceived == false`, call `updateNtpTime(tz)`
   (`ok`/`ntpNow` are the oracle inputs for its `getLocalTime`);
2. lines 265–275: if `refresh > T || start == 0`, set `start = 1`,
   `WiFi.begin(...)` (blocking re-association), `bTimeReceived = false`,
   `refresh = 0`;
3. lines 278–307: if `bTimeReceived`, increment `refresh` and render.
-/
def loopStep (ext : Externals) (T : Nat) (ok : Bool) (ntpNow : Int)
    (s : SysState) : LoopResult :=
  let p1 := if s.clock.bTimeReceived = false
    then updateNtpTime ext ok ntpNow tz s else (s, [])
  let s1 := p1.1
  let fire : Bool := decide (T < s1.clock.refresh ∨ s1.clock.start = 0)
  let p2 := if fire then
      (({ clock := { bTimeReceived := false, start := 1, refresh := 0 },
          env := s1.env } : SysState),
       [Event.eWifiBegin chSSID chPassword])
    else (s1, [])
  let s2 := p2.1
  let p3 := if s2.clock.bTimeReceived then
      (({ clock := { s2.clock with refresh := s2.clock.refresh + 1 },
          env := s2.env } : SysState),
       renderEvents ext s2.env)
    else (s2, [])
  ⟨p3.1, p1.2 ++ p2.2 ++ p3.2, fire⟩

/-- The state at the end of `setup` just before `initTime` runs (line 243):
`bTimeReceived = false` (line 69), `start = 0` (line 75), and the static
`refresh` of `loop` is zero-initialized (line 254); the time environment is
whatever the hardware booted with. -/
def startupState (env0 : TimeEnv) : SysState :=
  { clock := { bTimeReceived := false, start := 0, refresh := 0 }, env := env0 }

/-- States of the sketch as seen at the top of `loop`: the state `initTime`
leaves behind (for either `getLocalTime` outcome), and anything a further
iteration produces. -/
inductive Reachable (ext : Externals) (T : Nat) : SysState → Prop where
  | boot (ok : Bool) (ntpNow : Int) (env0 : TimeEnv) :
      Reachable ext T (initTime ext ok ntpNow tz (startupState env0)).1
  | step (ok : Bool) (ntpNow : Int) (s : SysState) :
      Reachable ext T s → Reachable ext T (loopStep ext T ok ntpNow s).state

/-- The scheduler decisions named by the specification (`ResyncOnly` is
never produced by this design and is omitted from the embedding). -/
inductive ScheduleDecision where
  | none
  | reassociateAndResync
  deriving Repr, DecidableEq

/-- The Resync Scheduler's `tick()` as realized by `loop` for a synced
state: the increment `refresh += 1` (line 280) performed at the bottom of
one iteration, paired with the check `refresh > T || start == 0`
(line 265) that inspects that counter value at the top of the next
iteration; when the check fires, lines 266–274 set `start = 1`,
`bTimeReceived = false`, `refresh = 0`. -/
def tick (T : Nat) (c : ClockState) : ScheduleDecision × ClockState :=
  let c1 : ClockState := { c with refresh := c.refresh + 1 }
  if T < c1.refresh ∨ c1.start = 0 then
    (.reassociateAndResync, { bTimeReceived := false, start := 1, refresh := 0 })
  else
    (.none, c1)

/-- Run of `n` consecutive `tick` calls, collecting the decisions in order. -/
def tickRun (T : Nat) (c : ClockState) : Nat → List ScheduleDecision × ClockState
  | 0 => ([], c)
  | n + 1 =>
    let p := tickRun T c n
    let q := tick T p.2
    (p.1 ++ [q.1], q.2)

/-- Display-surface calls among the events (the u8g2 clear/draw/send
triple). -/
def isDisplayEvent : Event → Bool
  | .eClearBuffer => true
  | .eDrawStr _ _ _ => true
  | .eSendBuffer => true
  | _ => false

/-- The subtrace of display-surface calls. -/
def displayEvents (evs : List Event) : List Event := evs.filter isDisplayEvent

/-- The invariant maintained at every loop-top state: `bTimeReceived`
implies `start = 1`; while `bTimeReceived` is false the tick counter is 0;
the tick counter never exceeds `T + 1`; and `start` is 0 or 1. -/
def Inv (T : Nat) (s : SysState) : Prop :=
  (s.clock.bTimeReceived = true → s.clock.start = 1) ∧
  (s.clock.bTimeReceived = false → s.clock.refresh = 0) ∧
  s.clock.refresh ≤ T + 1 ∧
  s.clock.start ≤ 1

/-- A concrete instantiation of the external collaborators, used to
evaluate the model on concrete inputs. -/
def extDefault : Externals :=
  { fmtDate := fun _ => "", fmtTime := fun _ => "", strWidth := fun _ => 0,
    ruleOffset := fun _ => 0 }

theorem updateNtpTime_fst (ext : Externals) (ok : Bool) (ntpNow : Int)
    (timezone : String) (s : SysState) :
    (updateNtpTime ext ok ntpNow timezone s).1 =
      if ok then
        { clock := { bTimeReceived := true, start := 1, refresh := s.clock.refresh },
          env := setTimezone ext timezone (configTime 0 0 (some ntpNow) s.env) }
      else
        { clock := { s.clock with bTimeReceived := false },
          env := configTime 0 0 none s.env } := by
  cases ok <;> simp [updateNtpTime]

theorem initTime_fst (ext : Externals) (ok : Bool) (ntpNow : Int)
    (timezone : String) (s : SysState) :
    (initTime ext ok ntpNow timezone s).1 =
      if ok then
        { clock := { bTimeReceived := true, start := 1, refresh := s.clock.refresh },
          env := setTimezone ext timezone (configTime 0 0 (some ntpNow) s.env) }
      else
        { clock := { s.clock with bTimeReceived := false },
          env := configTime 0 0 none s.env } := by
  cases ok <;> simp [initTime]

theorem initTime_inv (ext : Externals) (T : Nat) (ok : Bool) (ntpNow : Int)
    (env0 : TimeEnv) :
    Inv T (initTime ext ok ntpNow tz (startupState env0)).1 := by
  cases ok <;>
    simp [Inv, initTime_fst, startupState]

theorem loopStep_inv (ext : Externals) (T : Nat) (ok : Bool) (ntpNow : Int)
    (s : SysState) (h : Inv T s) :
    Inv T (loopStep ext T ok ntpNow s).state := by
  obtain ⟨h1, h2, h3, h4⟩ := h
  cases hr : s.clock.bTimeReceived <;> cases ok <;>
    simp only [loopStep, updateNtpTime, hr, Bool.false_eq_true, if_true,
      if_false, ite_true, ite_false, reduceIte, Inv] <;>
    split_ifs <;>
    simp_all

theorem reachable_inv (ext : Externals) (T : Nat) (s : SysState)
    (h : Reachable ext T s) : Inv T s := by
  induction h with
  | boot ok ntpNow env0 => exact initTime_inv ext T ok ntpNow env0
  | step ok ntpNow s _ ih => exact loopStep_inv ext T ok ntpNow s ih

/-- C4: on a failing acquisition (`getLocalTime` returns false inside
`initTime` or `updateNtpTime`), the operation sets `bTimeReceived` to
`false` and leaves `start` and `refresh` unchanged from their values at
entry. -/
theorem acquire_failure_postcondition (ext : Externals) (ntpNow : Int)
    (timezone : String) (s : SysState) :
    ((updateNtpTime ext false ntpNow timezone s).1.clock.bTimeReceived = false ∧
     (updateNtpTime ext false ntpNow timezone s).1.clock.start = s.clock.start ∧
     (updateNtpTime ext false ntpNow timezone s).1.clock.refresh = s.clock.refresh) ∧
    ((initTime ext false ntpNow timezone s).1.clock.bTimeReceived = false ∧
     (initTime ext false ntpNow timezone s).1.clock.start = s.clock.start ∧
     (initTime ext false ntpNow timezone s).1.clock.refresh = s.clock.refresh) := by
  simp [updateNtpTime, initTime]

/-- C5: a successful acquisition calls `configTime(0,0,server)` (the raw
zero-offset commit) strictly before `setTimezone` (its trace is exactly
the two calls in that order), and the local time read immediately
afterwards equals the raw source time plus exactly the configured rule's
offset. -/
theorem acquire_commit_ordering (ext : Externals) (ntpNow : Int)
    (timezone : String) (s : SysState) :
    ((updateNtpTime ext true ntpNow timezone s).2 =
       [Event.eConfigTime 0 0 ntpServer, Event.eSetTZ timezone] ∧
     localRead (updateNtpTime ext true ntpNow timezone s).1.env =
       ntpNow + ext.ruleOffset timezone) ∧
    ((initTime ext true ntpNow timezone s).2 =
       [Event.eConfigTime 0 0 ntpServer, Event.eSetTZ timezone] ∧
     localRead (initTime ext true ntpNow timezone s).1.env =
       ntpNow + ext.ruleOffset timezone) := by
  simp [updateNtpTime, initTime, configTime, setTimezone, localRead]

/-- C1: every successful run of the acquire operation — `updateNtpTime`
invoked by `loop` (which only happens while `bTimeReceived == false`, from
a reachable state) or `initTime` invoked by `setup` — completes with
`bTimeReceived = true`, `start = 1` and `refresh = 0`. -/
theorem acquire_success_postcondition (ext : Externals) (T : Nat)
    (s : SysState) (ntpNow : Int) (h : Reachable ext T s)
    (hrecv : s.clock.bTimeReceived = false) :
    ((updateNtpTime ext true ntpNow tz s).1.clock.bTimeReceived = true ∧
     (updateNtpTime ext true ntpNow tz s).1.clock.start = 1 ∧
     (updateNtpTime ext true ntpNow tz s).1.clock.refresh = 0) ∧
    ∀ env0 : TimeEnv,
      (initTime ext true ntpNow tz (startupState env0)).1.clock.bTimeReceived = true ∧
      (initTime ext true ntpNow tz (startupState env0)).1.clock.start = 1 ∧
      (initTime ext true ntpNow tz (startupState env0)).1.clock.refresh = 0 := by
  have h0 : s.clock.refresh = 0 := (reachable_inv ext T s h).2.1 hrecv
  constructor
  · simp [updateNtpTime_fst, h0]
  · intro env0
    simp [initTime_fst, startupState]

/-- Closed witness for C1 at a concrete reachable state: the state left by
a failed `initTime`, followed by a successful `updateNtpTime`. -/
theorem acquire_success_postcondition_witness :
    (initTime extDefault false 0 tz (startupState ⟨0, 0⟩)).1.clock.bTimeReceived
        = false ∧
    (updateNtpTime extDefault true 5 tz
        (initTime extDefault false 0 tz (startupState ⟨0, 0⟩)).1).1.clock.refresh
      = 0 :=
  ⟨by decide,
   (acquire_success_postcondition extDefault 16200
      (initTime extDefault false 0 tz (startupState ⟨0, 0⟩)).1 5
      (Reachable.boot false 0 ⟨0, 0⟩) (by decide)).1.2.2⟩

/-- C9: in any `loop` iteration, the trace of display-surface calls is
exactly clear → draw date → draw time → flush when `bTimeReceived` holds
at the render step, and empty when it does not: a clear is never
observable without the following flush in the same iteration, and while
unsynced the loop never redraws the display. -/
theorem render_trace_shape (ext : Externals) (T : Nat) (ok : Bool)
    (ntpNow : Int) (s : SysState) :
    let r := loopStep ext T ok ntpNow s
    let t := localRead r.state.env
    displayEvents r.events =
      if r.state.clock.bTimeReceived then
        [Event.eClearBuffer,
         Event.eDrawStr (60 - (ext.strWidth (ext.fmtDate t) : Int) / 2) 7
           (ext.fmtDate t),
         Event.eDrawStr 10 (52 - FONT_TWO_HEIGHT) (ext.fmtTime t),
         Event.eSendBuffer]
      else [] := by
  cases hr : s.clock.bTimeReceived <;> cases ok <;>
    simp only [loopStep, updateNtpTime, hr, Bool.false_eq_true, if_true,
      if_false, ite_true, ite_false, reduceIte] <;>
    split_ifs <;>
    simp_all [displayEvents, renderEvents, isDisplayEvent]

/-- C6: in every `loop` iteration, `refresh` is incremented by exactly one
precisely when `bTimeReceived` is true at the render step (starting from 0
if the forced-resync branch fired earlier in the same iteration, from its
entry value otherwise), and it never increases in an iteration whose
render step sees `bTimeReceived = false`. -/
theorem tick_advances_only_when_received (ext : Externals) (T : Nat)
    (ok : Bool) (ntpNow : Int) (s : SysState) :
    ((loopStep ext T ok ntpNow s).state.clock.refresh =
      if (loopStep ext T ok ntpNow s).state.clock.bTimeReceived then
        (if (loopStep ext T ok ntpNow s).fired then 0 else s.clock.refresh) + 1
      else
        (if (loopStep ext T ok ntpNow s).fired then 0 else s.clock.refresh)) ∧
    ((loopStep ext T ok ntpNow s).state.clock.bTimeReceived = false →
      (loopStep ext T ok ntpNow s).state.clock.refresh ≤ s.clock.refresh) := by
  cases hr : s.clock.bTimeReceived <;> cases ok <;>
    simp only [loopStep, updateNtpTime, hr, Bool.false_eq_true, if_true,
      if_false, ite_true, ite_false, reduceIte] <;>
    split_ifs <;>
    simp_all

/-- Closed witness for C6: with a failing acquisition from the startup
state, the render step sees `bTimeReceived = false` and the counter does
not increase. -/
theorem tick_advances_only_when_received_witness :
    (loopStep extDefault 16200 false 0 (startupState ⟨0, 0⟩)).state.clock.refresh ≤
      (startupState (⟨0, 0⟩ : TimeEnv)).clock.refresh :=
  (tick_advances_only_when_received extDefault 16200 false 0
      (startupState ⟨0, 0⟩)).2 (by decide)

/-- C8: an iteration in which the forced-resync branch fires does not call
acquire after the decision and does not render: its trace ends with the
blocking `WiFi.begin` re-association call, contains no display-surface
call, and it leaves `bTimeReceived = false` and `refresh = 0`, so the
fresh acquisition (`configTime` first) happens at the top of the next
iteration. -/
theorem updateNtpTime_snd (ext : Externals) (ok : Bool) (ntpNow : Int)
    (timezone : String) (s : SysState) :
    (updateNtpTime ext ok ntpNow timezone s).2 =
      if ok then [Event.eConfigTime 0 0 ntpServer, Event.eSetTZ timezone]
      else [Event.eConfigTime 0 0 ntpServer] := by
  cases ok <;> simp [updateNtpTime]

theorem displayEvents_append (l1 l2 : List Event) :
    displayEvents (l1 ++ l2) = displayEvents l1 ++ displayEvents l2 :=
  List.filter_append l1 l2

theorem displayEvents_updateNtpTime (ext : Externals) (ok : Bool)
    (ntpNow : Int) (timezone : String) (s : SysState) :
    displayEvents (updateNtpTime ext ok ntpNow timezone s).2 = [] := by
  cases ok <;> simp [updateNtpTime, displayEvents, isDisplayEvent]

theorem loopStep_fired (ext : Externals) (T : Nat) (ok : Bool) (ntpNow : Int)
    (s : SysState) (h : (loopStep ext T ok ntpNow s).fired = true) :
    (loopStep ext T ok ntpNow s).state.clock = ⟨false, 1, 0⟩ ∧
    (loopStep ext T ok ntpNow s).events =
      (if s.clock.bTimeReceived = false
        then (updateNtpTime ext ok ntpNow tz s).2 else []) ++
      [Event.eWifiBegin chSSID chPassword] := by
  cases hr : s.clock.bTimeReceived <;> cases ok <;>
    simp only [loopStep, updateNtpTime, hr, Bool.false_eq_true, if_true,
      if_false, ite_true, ite_false, reduceIte] at h ⊢ <;>
    split_ifs at h ⊢ <;>
    simp_all

theorem loopStep_head_acquire (ext : Externals) (T : Nat) (ok : Bool)
    (ntpNow : Int) (s : SysState) (h : s.clock.bTimeReceived = false) :
    (loopStep ext T ok ntpNow s).events.head? =
      some (Event.eConfigTime 0 0 ntpServer) := by
  cases ok <;>
    simp only [loopStep, updateNtpTime, h, if_true, if_false, ite_true,
      ite_false, reduceIte] <;>
    split_ifs <;>
    simp

/-- C8: an iteration in which the forced-resync branch fires does not call
acquire after the decision and does not render: its trace ends with the
blocking `WiFi.begin` re-association call, contains no display-surface
call, and it leaves `bTimeReceived = false` and `refresh = 0`, so the
fresh acquisition (`configTime` first) happens at the top of the next
iteration. -/
theorem forced_resync_defers_acquire (ext : Externals) (T : Nat) (ok : Bool)
    (ntpNow : Int) (s : SysState)
    (h : (loopStep ext T ok ntpNow s).fired = true) :
    (loopStep ext T ok ntpNow s).state.clock.bTimeReceived = false ∧
    (loopStep ext T ok ntpNow s).state.clock.refresh = 0 ∧
    (loopStep ext T ok ntpNow s).events.getLast? =
      some (Event.eWifiBegin chSSID chPassword) ∧
    displayEvents (loopStep ext T ok ntpNow s).events = [] ∧
    ∀ (ok2 : Bool) (ntpNow2 : Int),
      (loopStep ext T ok2 ntpNow2 (loopStep ext T ok ntpNow s).state).events.head? =
        some (Event.eConfigTime 0 0 ntpServer) := by
  obtain ⟨hclock, hev⟩ := loopStep_fired ext T ok ntpNow s h
  refine ⟨by rw [hclock], by rw [hclock], ?_, ?_, ?_⟩
  · rw [hev, List.getLast?_append_cons]
    rfl
  · rw [hev, displayEvents_append]
    by_cases hb : s.clock.bTimeReceived = false
    · rw [if_pos hb, displayEvents_updateNtpTime]
      rfl
    · rw [if_neg hb]
      rfl
  · intro ok2 ntpNow2
    exact loopStep_head_acquire ext T ok2 ntpNow2 _ (by rw [hclock])

/-- Closed witness for C8 at a synced state whose counter has passed the
threshold. -/
theorem forced_resync_defers_acquire_witness :
    (loopStep extDefault 16200 false 0
        (⟨⟨true, 1, 16201⟩, ⟨0, 0⟩⟩ : SysState)).state.clock.bTimeReceived = false :=
  (forced_resync_defers_acquire extDefault 16200 false 0
      ⟨⟨true, 1, 16201⟩, ⟨0, 0⟩⟩ (by decide)).1

/-- C10: in every reachable loop-top state with the source's threshold
16200, the tick counter never exceeds 16201. -/
theorem refresh_bounded (ext : Externals) (s : SysState)
    (h : Reachable ext 16200 s) : s.clock.refresh ≤ 16201 :=
  (reachable_inv ext 16200 s h).2.2.1

/-- Closed witness for C10 at the state left by a successful `initTime`. -/
theorem refresh_bounded_witness :
    (initTime extDefault true 0 tz (startupState ⟨0, 0⟩)).1.clock.refresh ≤ 16201 :=
  refresh_bounded extDefault (initTime extDefault true 0 tz (startupState ⟨0, 0⟩)).1
    (Reachable.boot true 0 ⟨0, 0⟩)

/-- Counterexample to C3: when `initTime` fails (startup with no NTP
answer), the loop reaches a state with `bTimeReceived = false` and
`start = 0`, the reassociation condition is evaluated there, and the
branch fires — through the `start == 0` disjunct, with `received` false,
so the branch is a reachable runtime path. -/
theorem start_zero_branch_reachable :
    (initTime extDefault false 0 tz (startupState ⟨0, 0⟩)).1.clock.bTimeReceived
        = false ∧
    (initTime extDefault false 0 tz (startupState ⟨0, 0⟩)).1.clock.start = 0 ∧
    Reachable extDefault 16200
      (initTime extDefault false 0 tz (startupState ⟨0, 0⟩)).1 ∧
    (loopStep extDefault 16200 false 0
        (initTime extDefault false 0 tz (startupState ⟨0, 0⟩)).1).fired = true :=
  ⟨by decide, by decide, Reachable.boot false 0 ⟨0, 0⟩, by decide⟩

/-- C3 (amended): in every reachable state, `received == true` does imply
`start == 1`; the `start == 0` disjunct is reachable (it fires while no
acquisition has ever succeeded), but from any reachable state that already
has `start == 1` the reassociation branch can fire only via the
tick-threshold disjunct. -/
theorem reassoc_condition_invariant (ext : Externals) (T : Nat)
    (s : SysState) (h : Reachable ext T s) :
    (s.clock.bTimeReceived = true → s.clock.start = 1) ∧
    (∀ (ok : Bool) (ntpNow : Int), s.clock.start = 1 →
      (loopStep ext T ok ntpNow s).fired = true → T < s.clock.refresh) := by
  refine ⟨(reachable_inv ext T s h).1, ?_⟩
  intro ok ntpNow hstart hf
  cases hr : s.clock.bTimeReceived <;> cases ok <;>
    simp only [loopStep, updateNtpTime, hr, hstart, Bool.false_eq_true,
      if_true, if_false, ite_true, ite_false, reduceIte] at hf <;>
    simp_all

/-- Closed witness for C3 (amended) at the state left by a successful
`initTime`. -/
theorem reassoc_condition_invariant_witness :
    (initTime extDefault true 5 tz (startupState ⟨0, 0⟩)).1.clock.start = 1 :=
  (reassoc_condition_invariant extDefault 16200
      (initTime extDefault true 5 tz (startupState ⟨0, 0⟩)).1
      (Reachable.boot true 5 ⟨0, 0⟩)).1 (by decide)

/-- Counterexample to C7: with every acquisition failing, the very first
loop iteration sets `start` to 1 through the reassociation branch even
though no successful acquisition has completed — the traces show no
`setTimezone` call (which a successful acquisition always performs), yet
`start` goes from 0 to 1. -/
theorem start_without_success :
    (initTime extDefault false 0 tz (startupState ⟨0, 0⟩)).1.clock.start = 0 ∧
    (loopStep extDefault 16200 false 0
        (initTime extDefault false 0 tz (startupState ⟨0, 0⟩)).1).state.clock.start
      = 1 ∧
    (initTime extDefault false 0 tz (startupState ⟨0, 0⟩)).2 =
      [Event.eConfigTime 0 0 ntpServer] ∧
    (loopStep extDefault 16200 false 0
        (initTime extDefault false 0 tz (startupState ⟨0, 0⟩)).1).events =
      [Event.eConfigTime 0 0 ntpServer, Event.eWifiBegin chSSID chPassword] :=
  ⟨by decide, by decide, by decide, by decide⟩

/-- C7 (amended): `start` is monotone and is 1 after every loop iteration
from any reachable state, whether or not an acquisition ever succeeded: it
is set to 1 by a successful acquisition and also by the reassociation
branch, which fires whenever `start == 0`. -/
theorem start_after_first_iteration (ext : Externals) (T : Nat) (ok : Bool)
    (ntpNow : Int) (s : SysState) (h : Reachable ext T s) :
    (loopStep ext T ok ntpNow s).state.clock.start = 1 := by
  have h4 : s.clock.start ≤ 1 := (reachable_inv ext T s h).2.2.2
  have h01 : s.clock.start = 0 ∨ s.clock.start = 1 := by omega
  cases hr : s.clock.bTimeReceived <;> cases ok <;>
    simp only [loopStep, updateNtpTime, hr, Bool.false_eq_true, if_true,
      if_false, ite_true, ite_false, reduceIte] <;>
    split_ifs <;>
    simp_all

/-- Closed witness for C7 (amended) after a successful boot acquisition. -/
theorem start_after_first_iteration_witness :
    (loopStep extDefault 16200 true 0
        (initTime extDefault true 0 tz (startupState ⟨0, 0⟩)).1).state.clock.start
      = 1 :=
  start_after_first_iteration extDefault 16200 true 0
    (initTime extDefault true 0 tz (startupState ⟨0, 0⟩)).1
    (Reachable.boot true 0 ⟨0, 0⟩)

theorem tick_none (T : Nat) (c : ClockState)
    (h : ¬(T < c.refresh + 1 ∨ c.start = 0)) :
    tick T c = (.none, { c with refresh := c.refresh + 1 }) := by
  simp [tick, h]

theorem tick_fire (T : Nat) (c : ClockState)
    (h : T < c.refresh + 1 ∨ c.start = 0) :
    tick T c = (.reassociateAndResync, ⟨false, 1, 0⟩) := by
  simp [tick, h]

theorem tickRun_le (T k : Nat) (hk : k ≤ T) :
    tickRun T ⟨true, 1, 0⟩ k = (List.replicate k .none, ⟨true, 1, k⟩) := by
  induction k with
  | zero => rfl
  | succ n ih =>
    have hn : n ≤ T := Nat.le_of_succ_le hk
    have h : ¬(T < (⟨true, 1, n⟩ : ClockState).refresh + 1 ∨
        (⟨true, 1, n⟩ : ClockState).start = 0) := by
      simp only []
      omega
    simp [tickRun, ih hn, tick_none T ⟨true, 1, n⟩ h, List.replicate_succ']

theorem tickRun_full (T : Nat) :
    tickRun T ⟨true, 1, 0⟩ (T + 1) =
      (List.replicate T .none ++ [.reassociateAndResync], ⟨false, 1, 0⟩) := by
  have hf : T < (⟨true, 1, T⟩ : ClockState).refresh + 1 ∨
      (⟨true, 1, T⟩ : ClockState).start = 0 := by
    simp only []
    omega
  simp [tickRun, tickRun_le T T le_rfl, tick_fire T ⟨true, 1, T⟩ hf]

/-- Counterexample to C2's threshold-3 instance: with threshold 3, three
tick calls from `tick = 0` yield `None, None, None` (not
`None, None, ReassociateAndResync`), and after the third call `received`
is still true and the counter is 3, not 0. -/
theorem threshold_three_counterexample :
    (tickRun 3 ⟨true, 1, 0⟩ 3).1 = [.none, .none, .none] ∧
    (tickRun 3 ⟨true, 1, 0⟩ 3).2 = (⟨true, 1, 3⟩ : ClockState) := by
  decide

/-- C2 (amended): for any threshold `T` (the code fixes 16200), `T + 1`
tick calls from `tick = 0` with no intervening reset return `None` on
every call but the last and `ReassociateAndResync` exactly on the
`(T+1)`-th, leaving `received = false` and `tick = 0`; in particular with
threshold 3, four tick calls yield `None, None, None,
ReassociateAndResync`, and after the fourth call `received` is false and
the counter is 0. -/
theorem scheduler_threshold (T : Nat) :
    ((tickRun T ⟨true, 1, 0⟩ (T + 1)).1 =
       List.replicate T .none ++ [.reassociateAndResync] ∧
     (tickRun T ⟨true, 1, 0⟩ (T + 1)).2 = (⟨false, 1, 0⟩ : ClockState)) ∧
    RESYNC_THRESHOLD = 16200 ∧
    (tickRun 3 ⟨true, 1, 0⟩ 4).1 =
      [.none, .none, .none, .reassociateAndResync] ∧
    (tickRun 3 ⟨true, 1, 0⟩ 4).2 = (⟨false, 1, 0⟩ : ClockState) := by
  refine ⟨⟨?_, ?_⟩, rfl, by decide, by decide⟩ <;> simp [tickRun_full T]

end NTPClock
